import Mathlib

/-!
A shallow embedding of `zephyr-bot.py`, a commit-message policy linter for a
Zephyr repository, together with proofs of its specified properties.

The program maps a commit message to a review verdict: a pair of an integer
review disposition and an explanatory message.  A fixed ordered table of tags
(`BACKPORT`, `FROMPULL`, `CHROMIUM`, `UPSTREAM`) is scanned; the first tag `T`
such that the message starts with the literal string "T: " has its checker
invoked; if no tag matches, a catalogue of the non-deprecated tags is returned
with a strictly-do-not-submit disposition.  `main` prints the explanation, a
separator, and a fixed bot disclaimer, and exits non-zero exactly when the
disposition is negative.

Python strings are modelled as `String`, scanned as their `List Char` data;
Python integers as `Int`.  The one regular expression in the program,
`re.escape("https://github.com/zephyrproject-") + r".*/pull/[0-9]+"` used with
`re.search`, is modelled by an explicit scanner (`regexSearchFrom`) in which
`.` matches any character except a newline, exactly as in Python's default
(non-DOTALL) mode, and is proved equivalent to a declarative decomposition
property (`frompull_link_spec`).
-/

set_option maxRecDepth 8000

namespace ZephyrBot

/-- Python `str.startswith(p)`: the character list of `p` is a prefix of the
character list of `s`. -/
def pyStartsWith (s p : String) : Bool :=
  p.data.isPrefixOf s.data

/-- Substring search on character lists: does `pat` occur as a contiguous
infix of the text?  Models Python's `in` / what a literal `re.search` finds. -/
def containsList (pat : List Char) : List Char → Bool
  | [] => pat.isPrefixOf []
  | c :: cs => pat.isPrefixOf (c :: cs) || containsList pat cs

/-- Substring containment on strings. -/
def str_contains (s pat : String) : Bool :=
  containsList pat.data s.data

/-- Line 10 of the source: the fixed disclaimer printed after every verdict. -/
def BOT_DISCLAIMER_MESSAGE : String :=
  "This is an automated message from a bot trying to be helpful.  If I'm mis-behaving, or if this message seems to be wrong, please feel free to reach out to my owner, jrosenth@chromium.org."

/-- Line 17: `REVIEW_STRICTLY_DO_NOT_SUBMIT = -1`. -/
def REVIEW_STRICTLY_DO_NOT_SUBMIT : Int := -1

/-- Line 18: `REVIEW_PREFER_NOT_SUBMITTED = -1`. -/
def REVIEW_PREFER_NOT_SUBMITTED : Int := -1

/-- Line 19: `REVIEW_NEEDS_HUMAN_APPROVAL = 1`. -/
def REVIEW_NEEDS_HUMAN_APPROVAL : Int := 1

/-- Line 20: `REVIEW_AUTOMATIC_APPROVAL = 1`. -/
def REVIEW_AUTOMATIC_APPROVAL : Int := 1

/-- Lines 23..41: `check_upstream_commit`. -/
def check_upstream_commit (_commit_message : String) : Int × String :=
  (REVIEW_STRICTLY_DO_NOT_SUBMIT,
    "The UPSTREAM tag is obsolete and should no longer be used.\n\nIf you are cherry-picking from upstream to a release branch, you should\nuse the BACKPORT tag, regardless if the cherry-pick is clean or not.\n\nIf you are cherry-picking from upstream to a main branch, or your PR was\nmerged into a release branch upstream, then Copybara should copy your CL\nto the appropriate branch within 24 hours.\n\nNote, if you would like an automated approval on backports to a\nrelease branch, simply wait for Copybara to copy your CL to the main\nbranch, and then use the \"Cherry-Pick\" button in the Gerrit UI to copy\nthe CL to a release branch, adding the BACKPORT tag.  You can then add\nthe Rubber Stamper bot as a reviewer on the CL and it will\nauto-approve.")

/-- Lines 44..49: `check_backport_commit`. -/
def check_backport_commit (_commit_message : String) : Int × String :=
  (REVIEW_NEEDS_HUMAN_APPROVAL,
    "Reviewers: please identify if this BACKPORT commit is acceptable to merge into the release branch.")

/-- The literal part of the FROMPULL regular expression,
`re.escape("https://github.com/zephyrproject-")`: after escaping it matches
exactly this character sequence. -/
def frompullPat : List Char := "https://github.com/zephyrproject-".data

/-- The literal `/pull/` part of the FROMPULL regular expression. -/
def pullPat : List Char := "/pull/".data

/-- Does the list start with a decimal digit?  Models `[0-9]` matching at the
current position (one digit suffices for `[0-9]+` to match). -/
def digitAfter : List Char → Bool
  | [] => false
  | d :: _ => d.isDigit

/-- Matching of the tail `.*/pull/[0-9]+` of the FROMPULL regular expression
starting right after the literal prefix: scan forward looking for `/pull/`
followed by a digit, stopping at a newline because Python's `.` does not match
`\n` in default mode. -/
def findPullAfter : List Char → Bool
  | [] => false
  | c :: cs =>
    if pullPat.isPrefixOf (c :: cs) && digitAfter ((c :: cs).drop pullPat.length) then
      true
    else if c = '\n' then
      false
    else
      findPullAfter cs

/-- `re.search` of the whole FROMPULL pattern: try a match at every position of
the text. -/
def regexSearchFrom : List Char → Bool
  | [] => false
  | c :: cs =>
    (frompullPat.isPrefixOf (c :: cs) && findPullAfter ((c :: cs).drop frompullPat.length))
      || regexSearchFrom cs

/-- Line 53..54 of the source: `p.search(commit_message)` is truthy. -/
def frompull_link_search (commit_message : String) : Bool :=
  regexSearchFrom commit_message.data

/-- Lines 52..64: `check_frompull_commit`. -/
def check_frompull_commit (commit_message : String) : Int × String :=
  if frompull_link_search commit_message = false then
    (REVIEW_STRICTLY_DO_NOT_SUBMIT,
      "Please add a link to the pull request in the commit message.")
  else
    (REVIEW_NEEDS_HUMAN_APPROVAL,
      "Reviewers: please identify if this FROMPULL commit is acceptable to merge to our Chromium OS branches.")

/-- Lines 67..89: `check_chromium_commit`. -/
def check_chromium_commit (_commit_message : String) : Int × String :=
  (REVIEW_PREFER_NOT_SUBMITTED,
    "The CHROMIUM tag is used for commits in this repository which cannot be upstreamed.\n\nGenerally speaking, almost all commits can either be upstreamed, or instead landed in one of our local repositories, such as platform/ec.\n\n* If it's possible to upstream this CL, please do so.  You can reupload this CL with the FROMPULL tag instead after uploading the pull request.\n\n* Otherwise, if it's possible to land this code in platform/ec or another local repository instead, please do that, and abandon this CL.\n\nIf none of the above are possible, you may remove my CR-1 on this CL and proceed with the review.\n\nThanks for helping us keep upstream first!\n")

/-- One entry of the `zephyr_tags` table: a tag name, its checker, and the
help text shown in the no-match catalogue.  The field names follow the
source's loop variables. -/
structure TagEntry where
  tag : String
  review_func : String → Int × String
  helpmsg : String

/-- Help text of the BACKPORT entry (lines 96..99). -/
def backport_help : String :=
  "This tag should be used for commits which have already merged into upstream Zephyr main branch, and you are cherry-picking to a release branch.  Note that this tag is now used regardless if the cherry-pick was clean or not."

/-- Help text of the FROMPULL entry (lines 104..106); the source misspells
Zephyr as Zepyhr here and the model reproduces it. -/
def frompull_help : String :=
  "This tag should be used for commits which have not yet been merged into upstream Zepyhr, but have a pending pull request open.  Please link to the pull request in the commit message."

/-- Help text of the CHROMIUM entry (lines 111..117). -/
def chromium_help : String :=
  "This tag should be used for commits which will never be upstreamed. Generally speaking, these commits can almost always be avoided by landing code in one of the repositories we maintain (i.e., platform/ec), and should only be used as a last resort if it's impossible to put it in one of our modules, and upstream won't accept our change.  Please include adequate justification as to why this commit cannot be upstreamed in your commit message."

/-- Help text of the UPSTREAM entry (line 119). -/
def upstream_help : String := "This tag should never be used."

/-- Lines 92..120: the ordered tag table `zephyr_tags`. -/
def zephyr_tags : List TagEntry :=
  [⟨"BACKPORT", check_backport_commit, backport_help⟩,
   ⟨"FROMPULL", check_frompull_commit, frompull_help⟩,
   ⟨"CHROMIUM", check_chromium_commit, chromium_help⟩,
   ⟨"UPSTREAM", check_upstream_commit, upstream_help⟩]

/-- The first loop of `zephyr_get_review` (lines 124..126): scan the table in
order; on the first entry whose `"tag: "` prefix matches, return that entry's
checker applied to the message. -/
def lookup_review : List TagEntry → String → Option (Int × String)
  | [], _ => none
  | t :: ts, commit_message =>
    if pyStartsWith commit_message (t.tag ++ ": ") then
      some (t.review_func commit_message)
    else
      lookup_review ts commit_message

/-- The initial text of the no-match message (lines 129..132). -/
def no_match_header : String :=
  "Your commit message subject line in this repository MUST include one\nof the following tags to help us track upstream changes:\n\n"

/-- The second loop of `zephyr_get_review` (lines 133..136): append one
bullet per tag, skipping the deprecated UPSTREAM entry. -/
def no_match_catalog : List TagEntry → String → String
  | [], msg => msg
  | t :: ts, msg =>
    if t.tag = "UPSTREAM" then
      no_match_catalog ts msg
    else
      no_match_catalog ts (msg ++ "* " ++ t.tag ++ ": " ++ t.helpmsg ++ "\n\n")

/-- The complete message returned when no tag matches. -/
def no_match_message : String :=
  no_match_catalog zephyr_tags no_match_header

/-- Lines 123..138: `zephyr_get_review`. -/
def zephyr_get_review (commit_message : String) : Int × String :=
  match lookup_review zephyr_tags commit_message with
  | some r => r
  | none => (REVIEW_STRICTLY_DO_NOT_SUBMIT, no_match_message)

/-- Python `print(s)`: the text written to standard output, a trailing newline
appended. -/
def pyPrint (s : String) : String := s ++ "\n"

/-- Lines 145..147 of `main`: everything the process writes to standard
output, as a function of the HEAD commit message. -/
def main_stdout (commit_message : String) : String :=
  pyPrint (zephyr_get_review commit_message).2 ++ pyPrint "\n" ++ pyPrint BOT_DISCLAIMER_MESSAGE

/-- Line 148 of `main`: the boolean return value `ret < 0`. -/
def main_retval (commit_message : String) : Bool :=
  decide ((zephyr_get_review commit_message).1 < 0)

/-- Lines 151..153: `sys.exit(main())` turns `True` into exit status 1 and
`False` into exit status 0. -/
def process_exit_code (commit_message : String) : Nat :=
  if main_retval commit_message then 1 else 0

/-- Declarative reading of the FROMPULL regular expression with Python's
actual `.` semantics: the message contains, somewhere, the literal prefix,
then any (possibly empty) run of characters none of which is a newline, then
`/pull/` and at least one decimal digit. -/
def frompull_link_spec (s : String) : Prop :=
  ∃ pre mid d rest,
    s.data = pre ++ (frompullPat ++ (mid ++ (pullPat ++ d :: rest)))
      ∧ '\n' ∉ mid ∧ d.isDigit = true

/-- The reading of the FROMPULL pattern in which `<anything>` really is any
characters including none, with no newline restriction; this follows the
specification text, not the code. -/
def frompull_link_spec_nodotrule (s : String) : Prop :=
  ∃ pre mid d rest,
    s.data = pre ++ (frompullPat ++ (mid ++ (pullPat ++ d :: rest)))
      ∧ d.isDigit = true

section Helpers

theorem isPrefixOf_decomp {p l : List Char} (h : p.isPrefixOf l = true) :
    ∃ t, l = p ++ t ∧ l.drop p.length = t := by
  obtain ⟨t, ht⟩ := List.isPrefixOf_iff_prefix.mp h
  exact ⟨t, ht.symm, by rw [← ht, List.drop_left]⟩

theorem isPrefixOf_append (p t : List Char) : p.isPrefixOf (p ++ t) = true :=
  List.isPrefixOf_iff_prefix.mpr ⟨t, rfl⟩

/-- Two candidate prefixes of the same list cannot start with different
characters: if one matches, the other does not. -/
theorem isPrefixOf_head_excl {a b : Char} {p q l : List Char} (hab : a ≠ b)
    (hp : List.isPrefixOf (a :: p) l = true) :
    List.isPrefixOf (b :: q) l = false := by
  cases l with
  | nil => simp [List.isPrefixOf] at hp
  | cons c cs =>
    simp only [List.isPrefixOf, Bool.and_eq_true, beq_iff_eq] at hp
    simp only [List.isPrefixOf, Bool.and_eq_false_iff]
    left
    simp only [beq_eq_false_iff_ne, ne_eq]
    exact fun hbc => hab (hp.1.trans hbc.symm)

theorem digitAfter_iff (l : List Char) :
    digitAfter l = true ↔ ∃ d rest, l = d :: rest ∧ d.isDigit = true := by
  cases l with
  | nil =>
    simp [digitAfter]
  | cons d rest =>
    simp only [digitAfter]
    constructor
    · intro h
      exact ⟨d, rest, rfl, h⟩
    · rintro ⟨d', rest', heq, hd⟩
      injection heq with h1 h2
      subst h1
      exact hd

theorem pullPat_length : pullPat.length = 6 := rfl

theorem frompullPat_length : frompullPat.length = 33 := rfl

/-- Correctness of the scanner for the tail of the pattern: it succeeds
exactly when the text decomposes as a newline-free run, then `/pull/`, then a
digit. -/
theorem findPullAfter_iff (l : List Char) :
    findPullAfter l = true ↔
      ∃ mid d rest, l = mid ++ (pullPat ++ d :: rest) ∧ '\n' ∉ mid ∧ d.isDigit = true := by
  induction l with
  | nil =>
    simp only [findPullAfter, Bool.false_eq_true, false_iff]
    rintro ⟨mid, d, rest, h, -, -⟩
    have := congrArg List.length h
    simp only [List.length_nil, List.length_append, List.length_cons, pullPat_length] at this
    omega
  | cons c cs ih =>
    by_cases hA : (pullPat.isPrefixOf (c :: cs) && digitAfter ((c :: cs).drop pullPat.length)) = true
    · have hstep : findPullAfter (c :: cs) = true := by
        simp only [findPullAfter]
        rw [if_pos hA]
      rw [hstep]
      simp only [true_iff]
      obtain ⟨hpre, hdig⟩ := Bool.and_eq_true_iff.mp hA
      obtain ⟨t, hteq, htdrop⟩ := isPrefixOf_decomp hpre
      rw [htdrop] at hdig
      obtain ⟨d, rest, rfl, hd⟩ := (digitAfter_iff t).mp hdig
      exact ⟨[], d, rest, by simpa using hteq, by simp, hd⟩
    · by_cases hnl : c = '\n'
      · subst hnl
        have hstep : findPullAfter ('\n' :: cs) = false := by
          simp only [findPullAfter]
          rw [if_neg hA]
          simp
        rw [hstep]
        simp only [Bool.false_eq_true, false_iff]
        rintro ⟨mid, d, rest, h, hmem, hd⟩
        cases mid with
        | nil =>
          simp only [List.nil_append] at h
          apply hA
          rw [h]
          refine Bool.and_eq_true_iff.mpr ⟨isPrefixOf_append _ _, ?_⟩
          rw [List.drop_left]
          exact (digitAfter_iff _).mpr ⟨d, rest, rfl, hd⟩
        | cons m ms =>
          rw [List.cons_append] at h
          injection h with h1 h2
          apply hmem
          rw [h1]
          exact List.mem_cons_self m ms
      · have hstep : findPullAfter (c :: cs) = findPullAfter cs := by
          simp only [findPullAfter]
          rw [if_neg hA, if_neg hnl]
        rw [hstep, ih]
        constructor
        · rintro ⟨mid, d, rest, h, hmem, hd⟩
          refine ⟨c :: mid, d, rest, by rw [List.cons_append, h], ?_, hd⟩
          intro hx
          rcases List.mem_cons.mp hx with h' | h'
          · exact hnl h'.symm
          · exact hmem h'
        · rintro ⟨mid, d, rest, h, hmem, hd⟩
          cases mid with
          | nil =>
            simp only [List.nil_append] at h
            exfalso
            apply hA
            rw [h]
            refine Bool.and_eq_true_iff.mpr ⟨isPrefixOf_append _ _, ?_⟩
            rw [List.drop_left]
            exact (digitAfter_iff _).mpr ⟨d, rest, rfl, hd⟩
          | cons m ms =>
            rw [List.cons_append] at h
            injection h with h1 h2
            exact ⟨ms, d, rest, h2, fun hx => hmem (List.mem_cons_of_mem m hx), hd⟩

/-- Correctness of the whole-regex scanner: `re.search` of the FROMPULL
pattern succeeds exactly when the text decomposes as in
`frompull_link_spec`. -/
theorem regexSearchFrom_iff (l : List Char) :
    regexSearchFrom l = true ↔
      ∃ pre mid d rest,
        l = pre ++ (frompullPat ++ (mid ++ (pullPat ++ d :: rest)))
          ∧ '\n' ∉ mid ∧ d.isDigit = true := by
  induction l with
  | nil =>
    simp only [regexSearchFrom, Bool.false_eq_true, false_iff]
    rintro ⟨pre, mid, d, rest, h, -, -⟩
    have := congrArg List.length h
    simp only [List.length_nil, List.length_append, List.length_cons, frompullPat_length,
      pullPat_length] at this
    omega
  | cons c cs ih =>
    have hstep : regexSearchFrom (c :: cs) =
        ((frompullPat.isPrefixOf (c :: cs) && findPullAfter ((c :: cs).drop frompullPat.length))
          || regexSearchFrom cs) := by
      simp only [regexSearchFrom]
    rw [hstep, Bool.or_eq_true, ih]
    constructor
    · rintro (hA | ⟨pre, mid, d, rest, h, hmem, hd⟩)
      · obtain ⟨hpre, hfind⟩ := Bool.and_eq_true_iff.mp hA
        obtain ⟨t, hteq, htdrop⟩ := isPrefixOf_decomp hpre
        rw [htdrop] at hfind
        obtain ⟨mid, d, rest, rfl, hmem, hd⟩ := (findPullAfter_iff t).mp hfind
        exact ⟨[], mid, d, rest, by simpa using hteq, hmem, hd⟩
      · exact ⟨c :: pre, mid, d, rest, by rw [List.cons_append, h], hmem, hd⟩
    · rintro ⟨pre, mid, d, rest, h, hmem, hd⟩
      cases pre with
      | nil =>
        simp only [List.nil_append] at h
        left
        rw [h]
        refine Bool.and_eq_true_iff.mpr ⟨isPrefixOf_append _ _, ?_⟩
        rw [List.drop_left]
        exact (findPullAfter_iff _).mpr ⟨mid, d, rest, rfl, hmem, hd⟩
      | cons p ps =>
        rw [List.cons_append] at h
        injection h with h1 h2
        exact Or.inr ⟨ps, mid, d, rest, h2, hmem, hd⟩

/-- The search function agrees with the declarative decomposition property. -/
theorem frompull_link_search_iff (s : String) :
    frompull_link_search s = true ↔ frompull_link_spec s :=
  regexSearchFrom_iff s.data

end Helpers

section Lookup

/-- The scan loop of `zephyr_get_review` is a first-match search: it equals
`List.find?` over the table followed by applying the found entry's checker. -/
theorem lookup_review_eq_find (ts : List TagEntry) (m : String) :
    lookup_review ts m =
      (ts.find? fun t => pyStartsWith m (t.tag ++ ": ")).map fun t => t.review_func m := by
  induction ts with
  | nil => simp [lookup_review]
  | cons t ts ih =>
    by_cases h : pyStartsWith m (t.tag ++ ": ") = true
    · simp [lookup_review, List.find?_cons, h]
    · have h' : pyStartsWith m (t.tag ++ ": ") = false := by simpa using h
      simp [lookup_review, List.find?_cons, h', ih]

/-- Every successful lookup returns the checker of some table entry applied to
the message. -/
theorem lookup_review_result {ts : List TagEntry} {m : String} {r : Int × String}
    (h : lookup_review ts m = some r) : ∃ t, t ∈ ts ∧ r = t.review_func m := by
  induction ts with
  | nil => simp [lookup_review] at h
  | cons t ts ih =>
    simp only [lookup_review] at h
    by_cases hc : pyStartsWith m (t.tag ++ ": ") = true
    · rw [if_pos hc] at h
      injection h with h1
      exact ⟨t, List.mem_cons_self t ts, h1.symm⟩
    · rw [if_neg hc] at h
      obtain ⟨t', ht', hr⟩ := ih h
      exact ⟨t', List.mem_cons_of_mem t ht', hr⟩

/-- If no entry's prefix matches, the loop falls through. -/
theorem lookup_review_none {ts : List TagEntry} {m : String}
    (h : ∀ t ∈ ts, pyStartsWith m (t.tag ++ ": ") = false) :
    lookup_review ts m = none := by
  induction ts with
  | nil => rfl
  | cons t ts ih =>
    simp only [lookup_review]
    rw [if_neg (by simp [h t (List.mem_cons_self t ts)])]
    exact ih fun t' ht' => h t' (List.mem_cons_of_mem t ht')

theorem zephyr_get_review_some {m : String} {r : Int × String}
    (h : lookup_review zephyr_tags m = some r) : zephyr_get_review m = r := by
  unfold zephyr_get_review
  rw [h]

theorem zephyr_get_review_none {m : String}
    (h : lookup_review zephyr_tags m = none) :
    zephyr_get_review m = (REVIEW_STRICTLY_DO_NOT_SUBMIT, no_match_message) := by
  unfold zephyr_get_review
  rw [h]

/-- A message that declares BACKPORT is routed to `check_backport_commit`. -/
theorem lookup_backport {m : String} (h : pyStartsWith m "BACKPORT: " = true) :
    lookup_review zephyr_tags m = some (check_backport_commit m) := by
  have hB : pyStartsWith m ("BACKPORT" ++ ": ") = true := h
  simp only [zephyr_tags, lookup_review]
  rw [if_pos hB]

/-- A message that declares FROMPULL is routed to `check_frompull_commit`:
the earlier BACKPORT entry cannot match because the first characters differ. -/
theorem lookup_frompull {m : String} (h : pyStartsWith m "FROMPULL: " = true) :
    lookup_review zephyr_tags m = some (check_frompull_commit m) := by
  have hF' : List.isPrefixOf ('F' :: "ROMPULL: ".data) m.data = true := h
  have hB : ¬ pyStartsWith m ("BACKPORT" ++ ": ") = true := fun hc =>
    Bool.false_ne_true ((isPrefixOf_head_excl (b := 'B') (q := "ACKPORT: ".data) (by decide) hF').symm.trans hc)
  have hF : pyStartsWith m ("FROMPULL" ++ ": ") = true := h
  simp only [zephyr_tags, lookup_review]
  rw [if_neg hB, if_pos hF]

/-- A message that declares CHROMIUM is routed to `check_chromium_commit`. -/
theorem lookup_chromium {m : String} (h : pyStartsWith m "CHROMIUM: " = true) :
    lookup_review zephyr_tags m = some (check_chromium_commit m) := by
  have hC' : List.isPrefixOf ('C' :: "HROMIUM: ".data) m.data = true := h
  have hB : ¬ pyStartsWith m ("BACKPORT" ++ ": ") = true := fun hc =>
    Bool.false_ne_true ((isPrefixOf_head_excl (b := 'B') (q := "ACKPORT: ".data) (by decide) hC').symm.trans hc)
  have hF : ¬ pyStartsWith m ("FROMPULL" ++ ": ") = true := fun hc =>
    Bool.false_ne_true ((isPrefixOf_head_excl (b := 'F') (q := "ROMPULL: ".data) (by decide) hC').symm.trans hc)
  have hC : pyStartsWith m ("CHROMIUM" ++ ": ") = true := h
  simp only [zephyr_tags, lookup_review]
  rw [if_neg hB, if_neg hF, if_pos hC]

/-- A message that declares UPSTREAM is routed to `check_upstream_commit`. -/
theorem lookup_upstream {m : String} (h : pyStartsWith m "UPSTREAM: " = true) :
    lookup_review zephyr_tags m = some (check_upstream_commit m) := by
  have hU' : List.isPrefixOf ('U' :: "PSTREAM: ".data) m.data = true := h
  have hB : ¬ pyStartsWith m ("BACKPORT" ++ ": ") = true := fun hc =>
    Bool.false_ne_true ((isPrefixOf_head_excl (b := 'B') (q := "ACKPORT: ".data) (by decide) hU').symm.trans hc)
  have hF : ¬ pyStartsWith m ("FROMPULL" ++ ": ") = true := fun hc =>
    Bool.false_ne_true ((isPrefixOf_head_excl (b := 'F') (q := "ROMPULL: ".data) (by decide) hU').symm.trans hc)
  have hC : ¬ pyStartsWith m ("CHROMIUM" ++ ": ") = true := fun hc =>
    Bool.false_ne_true ((isPrefixOf_head_excl (b := 'C') (q := "HROMIUM: ".data) (by decide) hU').symm.trans hc)
  have hU : pyStartsWith m ("UPSTREAM" ++ ": ") = true := h
  simp only [zephyr_tags, lookup_review]
  rw [if_neg hB, if_neg hF, if_neg hC, if_pos hU]

/-- The only dispositions the program ever produces are the two sentinel
values `-1` and `1`. -/
theorem review_disposition (m : String) :
    (zephyr_get_review m).1 = REVIEW_STRICTLY_DO_NOT_SUBMIT ∨
      (zephyr_get_review m).1 = REVIEW_NEEDS_HUMAN_APPROVAL := by
  cases hl : lookup_review zephyr_tags m with
  | none =>
    rw [zephyr_get_review_none hl]
    left
    rfl
  | some r =>
    rw [zephyr_get_review_some hl]
    obtain ⟨t, ht, hr⟩ := lookup_review_result hl
    subst hr
    simp only [zephyr_tags, List.mem_cons, List.not_mem_nil, or_false] at ht
    rcases ht with rfl | rfl | rfl | rfl
    · right
      rfl
    · by_cases hs : frompull_link_search m = false
      · left
        show (check_frompull_commit m).1 = _
        unfold check_frompull_commit
        rw [if_pos hs]
      · right
        show (check_frompull_commit m).1 = _
        unfold check_frompull_commit
        rw [if_neg hs]
    · left
      rfl
    · left
      rfl

end Lookup

/-- C1: tag dispatch is an ordered, case-sensitive, first-match prefix lookup:
for every commit message, `zephyr_get_review` delegates to the checker of the
first table entry `T` such that the message starts with the literal string
"T: ", scanning in declaration order, and otherwise takes the no-tag-matched
path; in particular the lowercase "backport: x" matches no tag and falls
through to the no-tag-matched result. -/
theorem C1_tag_dispatch_first_match :
    (∀ m : String,
      zephyr_get_review m =
        match zephyr_tags.find? (fun t => pyStartsWith m (t.tag ++ ": ")) with
        | some t => t.review_func m
        | none => (REVIEW_STRICTLY_DO_NOT_SUBMIT, no_match_message))
    ∧ zephyr_tags.find? (fun t => pyStartsWith "backport: x" (t.tag ++ ": ")) = none
    ∧ zephyr_get_review "backport: x" = (REVIEW_STRICTLY_DO_NOT_SUBMIT, no_match_message) := by
  refine ⟨?_, ?_, ?_⟩
  · intro m
    unfold zephyr_get_review
    rw [lookup_review_eq_find]
    cases List.find? (fun t => pyStartsWith m (t.tag ++ ": ")) zephyr_tags <;> rfl
  · rfl
  · rfl

/-- C2: when no recognized "<TAG>: " prefix starts the message, the verdict is
the MUST_NOT_SUBMIT sentinel with the catalogue message, which lists each
non-deprecated tag's help text as a bullet and never mentions UPSTREAM. -/
theorem C2_no_match_catalogue (m : String)
    (h : ∀ t ∈ zephyr_tags, pyStartsWith m (t.tag ++ ": ") = false) :
    zephyr_get_review m = (REVIEW_STRICTLY_DO_NOT_SUBMIT, no_match_message)
    ∧ str_contains no_match_message ("* BACKPORT: " ++ backport_help ++ "\n\n") = true
    ∧ str_contains no_match_message ("* FROMPULL: " ++ frompull_help ++ "\n\n") = true
    ∧ str_contains no_match_message ("* CHROMIUM: " ++ chromium_help ++ "\n\n") = true
    ∧ str_contains no_match_message "UPSTREAM" = false := by
  exact ⟨zephyr_get_review_none (lookup_review_none h), rfl, rfl, rfl, rfl⟩

/-- C2 witness: "hello world" declares no tag, so the theorem applies to it
and yields the catalogue verdict. -/
theorem C2_no_match_catalogue_witness :
    (∀ t ∈ zephyr_tags, pyStartsWith "hello world" (t.tag ++ ": ") = false)
    ∧ zephyr_get_review "hello world" = (REVIEW_STRICTLY_DO_NOT_SUBMIT, no_match_message) :=
  ⟨by decide, (C2_no_match_catalogue "hello world" (by decide)).1⟩

/-- C3 counterexample: on a FROMPULL message whose only pull-request link has
a newline inside the `<anything>` span, the claim's reading of the pattern
(`<anything>` is any characters including none) says a link is present, so the
claimed equivalence demands NEEDS_HUMAN_REVIEW; the program still returns the
MUST_NOT_SUBMIT demand for a link, because Python's `.` does not match a
newline.  The claimed biconditional is therefore false at this input. -/
theorem C3_counterexample :
    ¬ ((zephyr_get_review "FROMPULL: https://github.com/zephyrproject-\nrtos/pull/1"
          = (REVIEW_STRICTLY_DO_NOT_SUBMIT,
            "Please add a link to the pull request in the commit message."))
        ↔ ¬ frompull_link_spec_nodotrule
            "FROMPULL: https://github.com/zephyrproject-\nrtos/pull/1") := by
  intro hiff
  have hres : zephyr_get_review "FROMPULL: https://github.com/zephyrproject-\nrtos/pull/1"
      = (REVIEW_STRICTLY_DO_NOT_SUBMIT,
        "Please add a link to the pull request in the commit message.") := by rfl
  exact hiff.mp hres ⟨"FROMPULL: ".data, '\n' :: "rtos".data, '1', [], rfl, rfl⟩

/-- C3 amended: for every message starting with "FROMPULL: ", the program
returns the MUST_NOT_SUBMIT link demand iff the message contains no substring
matching `https://github.com/zephyrproject-<anything>/pull/<digits>` where
`<anything>` is any run of characters, including none, NOT containing a
newline (Python's default `.`); when such a substring is present it returns
NEEDS_HUMAN_REVIEW asking reviewers to judge acceptability for downstream
branches. -/
theorem C3_frompull_link (m : String) (h : pyStartsWith m "FROMPULL: " = true) :
    ((zephyr_get_review m = (REVIEW_STRICTLY_DO_NOT_SUBMIT,
        "Please add a link to the pull request in the commit message."))
      ↔ ¬ frompull_link_spec m)
    ∧ (frompull_link_spec m →
        zephyr_get_review m = (REVIEW_NEEDS_HUMAN_APPROVAL,
          "Reviewers: please identify if this FROMPULL commit is acceptable to merge to our Chromium OS branches.")) := by
  have hz : zephyr_get_review m = check_frompull_commit m :=
    zephyr_get_review_some (lookup_frompull h)
  rw [hz]
  refine ⟨⟨fun hres hspec => ?_, fun hspec => ?_⟩, fun hspec => ?_⟩
  · have hs := (frompull_link_search_iff m).mpr hspec
    unfold check_frompull_commit at hres
    rw [if_neg (by simp [hs])] at hres
    have h1 := congrArg Prod.fst hres
    simp [REVIEW_NEEDS_HUMAN_APPROVAL, REVIEW_STRICTLY_DO_NOT_SUBMIT] at h1
  · have hs : frompull_link_search m = false := by
      cases hb : frompull_link_search m
      · rfl
      · exact absurd ((frompull_link_search_iff m).mp hb) hspec
    unfold check_frompull_commit
    rw [if_pos hs]
  · have hs := (frompull_link_search_iff m).mpr hspec
    unfold check_frompull_commit
    rw [if_neg (by simp [hs])]

/-- C3 witness: a FROMPULL message with a well-formed pull-request link gets
the NEEDS_HUMAN_REVIEW verdict. -/
theorem C3_frompull_link_witness :
    pyStartsWith "FROMPULL: see https://github.com/zephyrproject-rtos/zephyr/pull/12345"
        "FROMPULL: " = true
    ∧ zephyr_get_review "FROMPULL: see https://github.com/zephyrproject-rtos/zephyr/pull/12345"
        = (REVIEW_NEEDS_HUMAN_APPROVAL,
          "Reviewers: please identify if this FROMPULL commit is acceptable to merge to our Chromium OS branches.") :=
  ⟨by rfl,
    (C3_frompull_link "FROMPULL: see https://github.com/zephyrproject-rtos/zephyr/pull/12345"
        (by rfl)).2
      ((frompull_link_search_iff _).mp (by rfl))⟩

/-- C4: the process exit status is non-zero exactly when the disposition is
one of the blocking values, the two blocking severities are represented by the
same negative sentinel (hence externally indistinguishable), and a
NEEDS_HUMAN_REVIEW verdict exits 0. -/
theorem C4_exit_status :
    REVIEW_STRICTLY_DO_NOT_SUBMIT = REVIEW_PREFER_NOT_SUBMITTED
    ∧ ∀ m : String,
        (process_exit_code m ≠ 0 ↔
          ((zephyr_get_review m).1 = REVIEW_STRICTLY_DO_NOT_SUBMIT ∨
            (zephyr_get_review m).1 = REVIEW_PREFER_NOT_SUBMITTED))
        ∧ ((zephyr_get_review m).1 = REVIEW_NEEDS_HUMAN_APPROVAL → process_exit_code m = 0) := by
  refine ⟨rfl, fun m => ⟨?_, fun hneeds => ?_⟩⟩
  · rcases review_disposition m with hd | hd
    · simp [process_exit_code, main_retval, hd, REVIEW_STRICTLY_DO_NOT_SUBMIT,
        REVIEW_PREFER_NOT_SUBMITTED]
    · simp [process_exit_code, main_retval, hd, REVIEW_NEEDS_HUMAN_APPROVAL,
        REVIEW_STRICTLY_DO_NOT_SUBMIT, REVIEW_PREFER_NOT_SUBMITTED]
  · simp [process_exit_code, main_retval, hneeds, REVIEW_NEEDS_HUMAN_APPROVAL]

/-- C4 witness: a BACKPORT commit gets the non-blocking disposition and the
process exit status 0. -/
theorem C4_exit_status_witness :
    (zephyr_get_review "BACKPORT: cherry-pick of abc123").1 = REVIEW_NEEDS_HUMAN_APPROVAL
    ∧ process_exit_code "BACKPORT: cherry-pick of abc123" = 0 :=
  ⟨by rfl, (C4_exit_status.2 "BACKPORT: cherry-pick of abc123").2 (by rfl)⟩

/-- C5: every message starting with "UPSTREAM: " is routed to the UPSTREAM
checker (the deprecated tag remains matchable), yielding the MUST_NOT_SUBMIT
sentinel with an explanation that mentions "obsolete" and "BACKPORT", while
the no-match catalogue never offers UPSTREAM. -/
theorem C5_upstream_rejected (m : String) (h : pyStartsWith m "UPSTREAM: " = true) :
    zephyr_get_review m = check_upstream_commit m
    ∧ (zephyr_get_review m).1 = REVIEW_STRICTLY_DO_NOT_SUBMIT
    ∧ str_contains (zephyr_get_review m).2 "obsolete" = true
    ∧ str_contains (zephyr_get_review m).2 "BACKPORT" = true
    ∧ str_contains no_match_message "UPSTREAM" = false := by
  have hz : zephyr_get_review m = check_upstream_commit m :=
    zephyr_get_review_some (lookup_upstream h)
  rw [hz]
  exact ⟨rfl, rfl, rfl, rfl, rfl⟩

/-- C5 witness: the specification's own example input. -/
theorem C5_upstream_rejected_witness :
    pyStartsWith "UPSTREAM: fix thing" "UPSTREAM: " = true
    ∧ zephyr_get_review "UPSTREAM: fix thing" = check_upstream_commit "UPSTREAM: fix thing" :=
  ⟨by rfl, (C5_upstream_rejected "UPSTREAM: fix thing" (by rfl)).1⟩

/-- C6: every message starting with "CHROMIUM: " gets the discouraged
disposition (the PREFER_NOT_SUBMITTED sentinel) with upstreaming guidance in
the explanation, and every message starting with "BACKPORT: " gets
NEEDS_HUMAN_REVIEW asking reviewers to judge the backport. -/
theorem C6_chromium_backport (m : String) :
    (pyStartsWith m "CHROMIUM: " = true →
      zephyr_get_review m = check_chromium_commit m
      ∧ (zephyr_get_review m).1 = REVIEW_PREFER_NOT_SUBMITTED
      ∧ str_contains (zephyr_get_review m).2 "upstream" = true
      ∧ str_contains (zephyr_get_review m).2 "If it's possible to upstream this CL, please do so." = true)
    ∧ (pyStartsWith m "BACKPORT: " = true →
      zephyr_get_review m = check_backport_commit m
      ∧ zephyr_get_review m = (REVIEW_NEEDS_HUMAN_APPROVAL,
          "Reviewers: please identify if this BACKPORT commit is acceptable to merge into the release branch.")) := by
  constructor
  · intro h
    have hz : zephyr_get_review m = check_chromium_commit m :=
      zephyr_get_review_some (lookup_chromium h)
    rw [hz]
    exact ⟨rfl, rfl, rfl, rfl⟩
  · intro h
    have hz : zephyr_get_review m = check_backport_commit m :=
      zephyr_get_review_some (lookup_backport h)
    rw [hz]
    exact ⟨rfl, rfl⟩

/-- C6 witness: the specification's own example inputs. -/
theorem C6_chromium_backport_witness :
    zephyr_get_review "CHROMIUM: local-only hack" = check_chromium_commit "CHROMIUM: local-only hack"
    ∧ zephyr_get_review "BACKPORT: no conflicts" = check_backport_commit "BACKPORT: no conflicts" :=
  ⟨((C6_chromium_backport "CHROMIUM: local-only hack").1 (by rfl)).1,
    ((C6_chromium_backport "BACKPORT: no conflicts").2 (by rfl)).1⟩

/-- C7: evaluation is total and terminating: for every input string the
result is a well-formed verdict, a disposition paired with an explanation,
and the disposition is one of the program's sentinel values; there is no
error or parse-failure path. -/
theorem C7_total_evaluation (m : String) :
    ∃ d e, zephyr_get_review m = (d, e)
      ∧ (d = REVIEW_STRICTLY_DO_NOT_SUBMIT ∨ d = REVIEW_NEEDS_HUMAN_APPROVAL) :=
  ⟨(zephyr_get_review m).1, (zephyr_get_review m).2, rfl, review_disposition m⟩

/-- C8: evaluation is deterministic and pure: two invocations on equal inputs
yield identical verdicts, disposition and explanation alike.  In this
embedding the evaluator is a function of the message text alone, which also
reflects that the source reads no state other than its argument. -/
theorem C8_deterministic (m₁ m₂ : String) (h : m₁ = m₂) :
    zephyr_get_review m₁ = zephyr_get_review m₂
    ∧ (zephyr_get_review m₁).1 = (zephyr_get_review m₂).1
    ∧ (zephyr_get_review m₁).2 = (zephyr_get_review m₂).2 := by
  subst h
  exact ⟨rfl, rfl, rfl⟩

/-- C8 witness: the theorem applied at a concrete repeated input. -/
theorem C8_deterministic_witness :
    zephyr_get_review "CHROMIUM: local hack" = zephyr_get_review "CHROMIUM: local hack" :=
  (C8_deterministic "CHROMIUM: local hack" "CHROMIUM: local hack" rfl).1

/-- C9: for every commit message, the text written to standard output is the
verdict's explanation (its line ended by `print`'s newline), then exactly two
blank lines, then the fixed bot disclaimer with its final newline — appended
unconditionally, whatever the disposition. -/
theorem C9_stdout_layout (m : String) :
    main_stdout m =
      (zephyr_get_review m).2 ++ "\n" ++ "\n" ++ "\n" ++ BOT_DISCLAIMER_MESSAGE ++ "\n" := by
  unfold main_stdout pyPrint
  apply String.ext
  simp [List.append_assoc]

/-- C10: the two non-blocking dispositions are collapsed exactly like the
blocking ones: NEEDS_HUMAN_APPROVAL and AUTOMATIC_APPROVAL are both the value
1, so a hypothetical AUTO_APPROVABLE verdict would be externally
indistinguishable from NEEDS_HUMAN_REVIEW, and every non-blocking verdict
exits with status 0. -/
theorem C10_nonblocking_collapse :
    REVIEW_NEEDS_HUMAN_APPROVAL = REVIEW_AUTOMATIC_APPROVAL
    ∧ REVIEW_NEEDS_HUMAN_APPROVAL = 1
    ∧ REVIEW_AUTOMATIC_APPROVAL = 1
    ∧ ∀ m : String,
        (zephyr_get_review m).1 = REVIEW_NEEDS_HUMAN_APPROVAL → process_exit_code m = 0 := by
  refine ⟨rfl, rfl, rfl, fun m h => ?_⟩
  simp [process_exit_code, main_retval, h, REVIEW_NEEDS_HUMAN_APPROVAL]

/-- C10 witness: a FROMPULL commit with a link is non-blocking and exits 0. -/
theorem C10_nonblocking_collapse_witness :
    (zephyr_get_review "FROMPULL: https://github.com/zephyrproject-rtos/zephyr/pull/7").1
        = REVIEW_NEEDS_HUMAN_APPROVAL
    ∧ process_exit_code "FROMPULL: https://github.com/zephyrproject-rtos/zephyr/pull/7" = 0 :=
  ⟨by rfl,
    C10_nonblocking_collapse.2.2.2
      "FROMPULL: https://github.com/zephyrproject-rtos/zephyr/pull/7" (by rfl)⟩

end ZephyrBot
